import Mathlib

/-!
# Verification of the Mobile-QA multi-agent core

A shallow embedding of the core control loop of the Mobile-QA multi-agent
repository (`src/qualgent/agent/{types,executor,supervisor,runner}.py` and
`src/qualgent/tools/adb_controller.py`), together with theorems settling the
specification's claims about it.

The embedding models:
* the shared data vocabulary (`ActionType`, `ErrorType`, `Action`,
  `StepResult`, `SupervisorVerdict`, `TestStatus`, `TestResult`);
* the Executor (`Executor.execute`, `Executor.execute_all`,
  `Executor._normalized_to_pixels`) with the device abstracted as an oracle
  telling which device commands fail and with what message;
* the Supervisor's response parser (`Supervisor._parse_response`);
* `AdbController.dump_ui_texts`'s extraction loop over parsed UI nodes;
* the Runner's per-test action loop (`Runner.run_test`), its recovery
  escalation ladder, and the surrounding per-test / per-suite error handling.

Python dictionaries of action parameters are embedded as association lists of
`PyVal` values; Python exceptions become `Except`/`Option`; the external
world (device, LLM planner/supervisor) becomes explicit deterministic
oracles indexed by call site, which is faithful because the Python code only
ever observes those collaborators through their returned values.
-/

namespace QualGent

/-- `ActionType` from `agent/types.py`. -/
inductive ActionType
  | tap
  | tap_text
  | swipe
  | type_text
  | tap_and_type
  | key_event
  | back
  | home
  | launch_app
  | force_stop
  | clear_data
  | relaunch_app
  | scroll_until_text
  | wait
  | screenshot
  deriving DecidableEq, Repr

/-- The string value of each `ActionType` enum member (`ActionType(str, Enum)`). -/
def ActionType.value : ActionType → String
  | .tap => "tap"
  | .tap_text => "tap_text"
  | .swipe => "swipe"
  | .type_text => "type_text"
  | .tap_and_type => "tap_and_type"
  | .key_event => "key_event"
  | .back => "back"
  | .home => "home"
  | .launch_app => "launch_app"
  | .force_stop => "force_stop"
  | .clear_data => "clear_data"
  | .relaunch_app => "relaunch_app"
  | .scroll_until_text => "scroll_until_text"
  | .wait => "wait"
  | .screenshot => "screenshot"

/-- `ErrorType` from `agent/types.py`. -/
inductive ErrorType
  | none
  | element_not_found
  | adb_failure
  | timeout
  | invalid_params
  | unknown
  deriving DecidableEq, Repr

/-- A Python value appearing in an action's parameter dict.  The planner
produces JSON, so parameter values are strings, numbers or booleans; numbers
are embedded as rationals. -/
inductive PyVal
  | str (s : String)
  | num (q : ℚ)
  | bool (b : Bool)
  deriving DecidableEq, Repr

/-- Python truthiness of a parameter value (`if not text`, `if not package`). -/
def PyVal.truthy : PyVal → Bool
  | .str s => s ≠ ""
  | .num q => q ≠ 0
  | .bool b => b

/-- A parameter dict: an association list with unique keys, looked up by
`params.get(key)`. -/
def Params := List (String × PyVal)

/-- `params.get(key)`: `some v` when the key is present, `none` otherwise. -/
def Params.get (p : Params) (key : String) : Option PyVal :=
  (List.find? (fun kv => kv.1 == key) p).map (·.2)

/-- `params.get(key, default)` for string-valued parameters: a missing key
yields the default; a present value is returned as-is. -/
def Params.getD (p : Params) (key : String) (dflt : PyVal) : PyVal :=
  (p.get key).getD dflt

instance : DecidableEq Params :=
  inferInstanceAs (DecidableEq (List (String × PyVal)))

/-- `Action` from `agent/types.py`. -/
structure Action where
  action_type : ActionType
  params : Params
  description : String := ""
  deriving DecidableEq

/-- `StepResult` from `agent/types.py`.  `screenshot_path` is the optional
path attached by `execute_all` after a successful step. -/
structure StepResult where
  action : Action
  success : Bool
  error_type : ErrorType := .none
  error_message : String := ""
  screenshot_path : Option String := Option.none
  deriving DecidableEq

/-- `TestStatus` from `agent/types.py`. -/
inductive TestStatus
  | pending
  | running
  | passed
  | failed
  | error
  deriving DecidableEq, Repr

/-- `SupervisorVerdict` from `agent/types.py`. -/
structure SupervisorVerdict where
  status : TestStatus
  evidence : String
  expected_vs_actual : String := ""
  confidence : ℚ := 1
  deriving DecidableEq

/-! ## Executor (`agent/executor.py`)

The `AdbController` is abstracted as an oracle mapping each issued device
command to `none` (success) or `some msg` (the call raises `AdbError(msg)`).
Arguments that the Python code passes to the controller unconverted are
carried as raw `PyVal`s; arguments it converts with `float()` / `int()` are
converted with `pyFloat` / `pyIntConv` first. -/

/-- Python `int()` applied to a rational: truncation toward zero. -/
def pyInt (q : ℚ) : ℤ := if q < 0 then -Rat.floor (-q) else Rat.floor q

/-- Python `float()` applied to a parameter value.  Numbers and booleans
convert; `none` marks a conversion that raises (string parsing of numeric
literals is not modelled — the planner emits coordinates as JSON numbers, and
no claim exercises numeric strings). -/
def pyFloat : PyVal → Option ℚ
  | .num q => Option.some q
  | .bool b => Option.some (if b then 1 else 0)
  | .str _ => Option.none

/-- Python `int()` applied to a parameter value (truncating floats). -/
def pyIntConv : PyVal → Option ℤ
  | .num q => Option.some (pyInt q)
  | .bool b => Option.some (if b then 1 else 0)
  | .str _ => Option.none

/-- A primitive command issued to the `AdbController` by the Executor or the
Runner. -/
inductive DeviceCmd
  | tap_coordinates (x y : ℤ)
  | tap_text (text partialMatch : PyVal)
  | swipe (x1 y1 x2 y2 duration : ℤ)
  | type_text (text : PyVal)
  | tap_and_type (target input partialMatch : PyVal)
  | send_key_event (code : ℤ)
  | back
  | home
  | launch_app (pkg : PyVal)
  | force_stop (pkg : PyVal)
  | clear_app_data (pkg : PyVal)
  | relaunch_app (pkg : PyVal)
  | scroll_until_text (text direction maxSwipes partialMatch : PyVal)
  | take_screenshot (path : PyVal)
  deriving DecidableEq

/-- The device oracle: `none` means the command succeeds, `some msg` means it
raises `AdbError(msg)`. -/
def Device := DeviceCmd → Option String

/-- A Python exception escaping a handler in `Executor._execute_action`. -/
inductive PyErr
  | executorError (msg : String) (t : ErrorType)
  | adbError (msg : String)
  | uncaught
  deriving DecidableEq

/-- Issue one device command, turning an oracle failure into `AdbError`. -/
def callDev (dev : Device) (c : DeviceCmd) : Except PyErr Unit :=
  match dev c with
  | Option.none => .ok ()
  | Option.some msg => .error (.adbError msg)

namespace Executor

/-- `Executor._normalized_to_pixels`: `int(x * w), int(y * h)`. -/
def normalized_to_pixels (w h : ℤ) (x y : ℚ) : ℤ × ℤ :=
  (pyInt (x * w), pyInt (y * h))

/-- `Executor._do_tap`.  Note: the missing-parameter `ExecutorError` here is
raised without an explicit error type, so it carries the constructor default
`ErrorType.UNKNOWN`. -/
def do_tap (dev : Device) (w h : ℤ) (p : Params) : Except PyErr Unit :=
  match p.get "x", p.get "y" with
  | Option.some xv, Option.some yv =>
    match pyFloat xv, pyFloat yv with
    | Option.some x, Option.some y =>
      let px := pyInt (x * w)
      let py := pyInt (y * h)
      callDev dev (.tap_coordinates px py)
    | _, _ => .error .uncaught
  | _, _ => .error (.executorError "tap requires 'x' and 'y' params" .unknown)

/-- `Executor._do_tap_text`.  As in `_do_tap`, the missing-parameter
`ExecutorError` carries the default `ErrorType.UNKNOWN`. -/
def do_tap_text (dev : Device) (p : Params) : Except PyErr Unit :=
  let text := p.getD "text" (.str "")
  if text.truthy then
    callDev dev (.tap_text text (p.getD "partial" (.bool false)))
  else
    .error (.executorError "tap_text requires 'text' param" .unknown)

/-- `Executor._do_swipe`. -/
def do_swipe (dev : Device) (w h : ℤ) (p : Params) : Except PyErr Unit :=
  match p.get "x1", p.get "y1", p.get "x2", p.get "y2" with
  | Option.some a, Option.some b, Option.some c, Option.some d =>
    match pyFloat a, pyFloat b, pyFloat c, pyFloat d,
          pyIntConv (p.getD "duration_ms" (.num 300)) with
    | Option.some x1, Option.some y1, Option.some x2, Option.some y2,
      Option.some dur =>
      callDev dev
        (.swipe (pyInt (x1 * w)) (pyInt (y1 * h))
                (pyInt (x2 * w)) (pyInt (y2 * h)) dur)
    | _, _, _, _, _ => .error .uncaught
  | _, _, _, _ =>
    .error (.executorError "swipe requires 'x1', 'y1', 'x2', 'y2' params"
      .invalid_params)

/-- `Executor._do_scroll_until_text`. -/
def do_scroll_until_text (dev : Device) (p : Params) : Except PyErr Unit :=
  let text := p.getD "text" (.str "")
  if text.truthy then
    callDev dev (.scroll_until_text text
      (p.getD "direction" (.str "down"))
      (p.getD "max_swipes" (.num 5))
      (p.getD "partial" (.bool false)))
  else
    .error (.executorError "scroll_until_text requires 'text' param"
      .invalid_params)

/-- `Executor._execute_action`: dispatch on the action type with parameter
validation, mirroring the Python `match` statement branch by branch. -/
def execute_action (dev : Device) (w h : ℤ) (a : Action) : Except PyErr Unit :=
  match a.action_type with
  | .tap => do_tap dev w h a.params
  | .tap_text => do_tap_text dev a.params
  | .swipe => do_swipe dev w h a.params
  | .type_text =>
    let text := a.params.getD "text" (.str "")
    if text.truthy then callDev dev (.type_text text)
    else .error (.executorError "type_text requires 'text' param" .invalid_params)
  | .tap_and_type =>
    let target := a.params.getD "target_text" (.str "")
    let input := a.params.getD "input_text" (.str "")
    let pm := a.params.getD "partial" (.bool false)
    if target.truthy = false then
      .error (.executorError "tap_and_type requires 'target_text' param"
        .invalid_params)
    else if input.truthy = false then
      .error (.executorError "tap_and_type requires 'input_text' param"
        .invalid_params)
    else callDev dev (.tap_and_type target input pm)
  | .key_event =>
    match a.params.get "key_code" with
    | Option.none =>
      .error (.executorError "key_event requires 'key_code' param"
        .invalid_params)
    | Option.some v =>
      match pyIntConv v with
      | Option.some k => callDev dev (.send_key_event k)
      | Option.none => .error .uncaught
  | .back => callDev dev .back
  | .home => callDev dev .home
  | .launch_app =>
    let pkg := a.params.getD "package" (.str "")
    if pkg.truthy then callDev dev (.launch_app pkg)
    else .error (.executorError "launch_app requires 'package' param" .invalid_params)
  | .force_stop =>
    let pkg := a.params.getD "package" (.str "")
    if pkg.truthy then callDev dev (.force_stop pkg)
    else .error (.executorError "force_stop requires 'package' param" .invalid_params)
  | .clear_data =>
    let pkg := a.params.getD "package" (.str "")
    if pkg.truthy then callDev dev (.clear_app_data pkg)
    else .error (.executorError "clear_data requires 'package' param" .invalid_params)
  | .relaunch_app =>
    let pkg := a.params.getD "package" (.str "")
    if pkg.truthy then callDev dev (.relaunch_app pkg)
    else .error (.executorError "relaunch_app requires 'package' param" .invalid_params)
  | .scroll_until_text => do_scroll_until_text dev a.params
  | .wait =>
    match pyFloat (a.params.getD "seconds" (.num 1)) with
    | Option.some _ => .ok ()
    | Option.none => .error .uncaught
  | .screenshot =>
    callDev dev (.take_screenshot (a.params.getD "path" (.str "screenshot.png")))

/-- Substring test used by the ADB error classifier (`"not found" in msg`). -/
def strContains (s pat : String) : Bool := decide (pat.toList <:+: s.toList)

/-- The `except AdbError` classifier in `Executor.execute`: lowercase the
message, then pattern-match for "not found" and "timed out"/"timeout". -/
def classifyAdbError (msg : String) : ErrorType :=
  let m := msg.toLower
  if strContains m "not found" then .element_not_found
  else if strContains m "timed out" || strContains m "timeout" then .timeout
  else .adb_failure

/-- `Executor.execute`: run one action, capturing `ExecutorError` and
`AdbError` into a `StepResult`.  `none` models a Python exception other than
those two escaping `execute` (the claims' "raises"). -/
def execute (dev : Device) (w h : ℤ) (a : Action) : Option StepResult :=
  match execute_action dev w h a with
  | .ok _ =>
    Option.some { action := a, success := true, error_type := .none }
  | .error (.executorError msg t) =>
    Option.some { action := a, success := false, error_type := t, error_message := msg }
  | .error (.adbError msg) =>
    Option.some { action := a, success := false, error_type := classifyAdbError msg,
                  error_message := msg }
  | .error .uncaught => Option.none

/-- Zero-padded step index, `f"step_{i:03d}.png"`'s number part. -/
def pad3 (i : ℕ) : String :=
  let s := toString i
  String.mk (List.replicate (3 - s.length) '0') ++ s

/-- One pass of the `Executor.execute_all` loop body: optionally attach a
post-action screenshot (non-fatal on `AdbError`) to a successful result. -/
def attachShot (dev : Device) (shotDir : Option String) (i : ℕ)
    (r : StepResult) : StepResult :=
  match shotDir with
  | Option.none => r
  | Option.some dir =>
    if r.success then
      let p := dir ++ "/step_" ++ pad3 i ++ ".png"
      match dev (.take_screenshot (.str p)) with
      | Option.none => { r with screenshot_path := Option.some p }
      | Option.some _ => r
    else r

/-- `Executor.execute_all` on the suffix of the action list starting at
index `i`: execute in order, stop at (and include) the first failure. -/
def execute_all_from (dev : Device) (w h : ℤ) (shotDir : Option String) :
    List Action → ℕ → Option (List StepResult)
  | [], _ => Option.some []
  | a :: rest, i =>
    match execute dev w h a with
    | Option.none => Option.none
    | Option.some r0 =>
      let r := attachShot dev shotDir i r0
      if r.success then
        (execute_all_from dev w h shotDir rest (i + 1)).map (r :: ·)
      else
        Option.some [r]

/-- `Executor.execute_all` (with `none` again modelling an escaping
exception from `execute`). -/
def execute_all (dev : Device) (w h : ℤ) (shotDir : Option String)
    (actions : List Action) : Option (List StepResult) :=
  execute_all_from dev w h shotDir actions 0

end Executor

/-! ## Supervisor response parsing (`agent/supervisor.py`) -/

/-- The model's structured response as seen by `Supervisor._parse_response`:
a JSON object whose relevant keys may each be absent.  Confidence values are
numbers (the prompt requests `0.0` to `1.0`); `float()` on a number is the
identity. -/
structure SupResponse where
  status : Option String := Option.none
  evidence : Option String := Option.none
  expected_vs_actual : Option String := Option.none
  confidence : Option ℚ := Option.none

/-- Python `str.upper()`, character by character (the status strings are
ASCII). -/
def pyUpper (s : String) : String := String.mk (s.data.map Char.toUpper)

namespace Supervisor

/-- `Supervisor._parse_response`: uppercase the status string (empty when the
key is missing), map `"PASSED"`/`"FAILED"` to their statuses and default
everything else to FAILED; default missing confidence to `0.5`. -/
def parse_response (d : SupResponse) : SupervisorVerdict :=
  let status_str := pyUpper (d.status.getD "")
  let status :=
    if status_str = "PASSED" then TestStatus.passed
    else if status_str = "FAILED" then TestStatus.failed
    else TestStatus.failed
  { status := status
    evidence := d.evidence.getD "No evidence provided"
    expected_vs_actual := d.expected_vs_actual.getD ""
    confidence := d.confidence.getD (1/2) }

end Supervisor

/-! ## UI-tree text extraction (`tools/adb_controller.py`) -/

/-- One `node` element of the UI Automator dump, holding its already-stripped
`text`, `content-desc` and `hint` attribute values (absent attributes read as
`""`, exactly what `elem.get(attr, "").strip()` yields). -/
structure UiNode where
  text : String
  content_desc : String
  hint : String
  deriving DecidableEq

namespace AdbController

/-- The body of `AdbController.dump_ui_texts`'s extraction loop for one
node: append the node's text, then its content-desc when distinct from the
text, then its hint when distinct from both. -/
def dumpStep (texts : List String) (n : UiNode) : List String :=
  let texts := if n.text ≠ "" then texts ++ [n.text] else texts
  let texts :=
    if n.content_desc ≠ "" ∧ n.content_desc ≠ n.text then
      texts ++ [n.content_desc]
    else texts
  let texts :=
    if n.hint ≠ "" ∧ n.hint ≠ n.text ∧ n.hint ≠ n.content_desc then
      texts ++ [n.hint]
    else texts
  texts

/-- `AdbController.dump_ui_texts`'s extraction loop over the parsed node
list. -/
def dump_ui_texts (nodes : List UiNode) : List String :=
  nodes.foldl dumpStep []

/-- The contribution of a single node to the dump, for stating the
per-node-deduplication property. -/
def nodeTexts (n : UiNode) : List String :=
  (if n.text ≠ "" then [n.text] else []) ++
  (if n.content_desc ≠ "" ∧ n.content_desc ≠ n.text then [n.content_desc] else []) ++
  (if n.hint ≠ "" ∧ n.hint ≠ n.text ∧ n.hint ≠ n.content_desc then [n.hint] else [])

end AdbController

/-! ## Run Loop (`agent/runner.py`, `Runner.run_test`)

The per-test action loop is embedded as a state machine.  The external
collaborators — the Planner's `plan_next_action`, the interim
`Supervisor.verify_step` probe, and `Executor.execute` — are deterministic
oracles indexed by the iteration number at which they are called; this is
faithful because the loop observes them only through their returned values
(and `Executor.execute` returns a `StepResult` rather than raising, see the
executor theorems).  Device commands issued *directly* by the loop's recovery
ladder (`adb.swipe`, `adb.back`, `adb.relaunch_app`) are recorded in
`recoveryTrace`; actions passed to `Executor.execute` are recorded in
`execTrace`.  Screenshots are counted rather than pathed.  Direct device
calls made by the loop (recovery gestures, screenshots) are modelled as
non-raising; a raise there would abort the test through the same
`except AdbError` handler modelled for SETUP. -/

/-- `PlannerResponse` from `agent/types.py`. -/
structure PlannerResponse where
  actions : List Action
  stop_condition : String := ""
  notes : String := ""
  is_complete : Bool := false

/-- `MAX_ITERATIONS` from `agent/runner.py`. -/
def MAX_ITERATIONS : ℕ := 20

/-- `DEFAULT_MAX_RETRIES_PER_STEP` from `agent/runner.py`. -/
def DEFAULT_MAX_RETRIES_PER_STEP : ℕ := 5

/-- `DEFAULT_MAX_SCROLLS_PER_STEP` from `agent/runner.py`. -/
def DEFAULT_MAX_SCROLLS_PER_STEP : ℕ := 3

/-- The per-step recovery budgets (`max_retries_per_step`,
`max_scrolls_per_step` constructor arguments of `Runner`). -/
structure RunConfig where
  maxRetries : ℕ := DEFAULT_MAX_RETRIES_PER_STEP
  maxScrolls : ℕ := DEFAULT_MAX_SCROLLS_PER_STEP

/-- The oracles for one test's action loop, indexed by the iteration number
(1-based) at which the corresponding call happens:
`planner i = none` models a `PlannerError`, `interim i = none` models a
`SupervisorError` in the interim probe. -/
structure RunEnv where
  planner : ℕ → Option PlannerResponse
  exec : ℕ → Action → StepResult
  interim : ℕ → Option SupervisorVerdict

/-- The mutable state of `Runner.run_test`'s action loop. -/
structure LoopState where
  iteration : ℕ := 0
  is_complete : Bool := false
  steps : List StepResult := []
  action_history : List String := []
  attempted_this_step : List String := []
  retry_count : ℕ := 0
  scroll_count : ℕ := 0
  back_tried : Bool := false
  relaunch_tried : Bool := false
  previous_action : Option Action := Option.none
  previous_result : Option StepResult := Option.none
  screenshots : ℕ := 1
  recoveryTrace : List DeviceCmd := []
  execTrace : List Action := []
  deriving DecidableEq

/-- The Python repr of a parameter value inside the action-key f-string.
Only the dependence on the parameters matters to the loop, not the exact
formatting; strings are quoted, numbers and booleans printed. -/
def PyVal.keyRepr : PyVal → String
  | .str s => "'" ++ s ++ "'"
  | .num q => toString q
  | .bool b => if b then "True" else "False"

/-- `action_key = f"{action.action_type.value}:{action.params}"`. -/
def actionKey (a : Action) : String :=
  a.action_type.value ++ ":\x7b" ++
    String.intercalate ", "
      (a.params.map (fun kv => "'" ++ kv.1 ++ "': " ++ kv.2.keyRepr)) ++ "\x7d"

/-- The history entry `f"{action.action_type.value}: {action.description}"`
appended to `action_history` before execution. -/
def historyEntry (a : Action) : String :=
  a.action_type.value ++ ": " ++ a.description

namespace Runner

/-- The recovery escalation ladder of `Runner.run_test` (the body of
`if retry_count >= self._max_retries`): scroll while the failure is
element-not-found and scroll budget remains, else back once, else relaunch
once, else abort.  Returns the updated state and whether the action loop is
aborted (`break`). -/
def escalate (cfg : RunConfig) (pkg : String) (errType : ErrorType)
    (s : LoopState) : LoopState × Bool :=
  if errType = .element_not_found ∧ s.scroll_count < cfg.maxScrolls then
    ({ s with
        recoveryTrace := s.recoveryTrace ++ [.swipe 540 1500 540 500 300]
        scroll_count := s.scroll_count + 1
        retry_count := 0 }, false)
  else if s.back_tried = false then
    ({ s with
        recoveryTrace := s.recoveryTrace ++ [.back]
        back_tried := true
        retry_count := 0 }, false)
  else if s.relaunch_tried = false then
    ({ s with
        recoveryTrace := s.recoveryTrace ++ [.relaunch_app (.str pkg)]
        relaunch_tried := true
        retry_count := 0 }, false)
  else
    (s, true)

/-- The interim-completion probe of `Runner.run_test`: every third
iteration, ask the Supervisor whether the goal is already achieved; a
`SupervisorError` (`none`) is swallowed; the loop exits early only on a
PASSED verdict with confidence above `0.8`. -/
def probeFires (env : RunEnv) (i : ℕ) : Bool :=
  if i % 3 = 0 then
    match env.interim i with
    | Option.some v =>
      if v.status = TestStatus.passed ∧ (0.8 : ℚ) < v.confidence then
        true
      else false
    | Option.none => false
  else false

/-- One pass of the `while` body of `Runner.run_test`: interim-completion
probe, planning, execution, recovery bookkeeping, post-action screenshot.
Returns the updated state and whether the loop `break`s. -/
def loopBody (env : RunEnv) (cfg : RunConfig) (pkg : String)
    (s : LoopState) : LoopState × Bool :=
  let i := s.iteration + 1
  if probeFires env i then
    ({ s with iteration := i, is_complete := true }, true)
  else
    match env.planner i with
    | Option.none => ({ s with iteration := i }, true)
    | Option.some plan =>
      if plan.is_complete then
        ({ s with iteration := i, is_complete := true }, true)
      else
        match plan.actions with
        | [] => ({ s with iteration := i }, true)
        | action :: _ =>
          let result := env.exec i action
          let s1 : LoopState :=
            { s with
                iteration := i
                action_history := s.action_history ++ [historyEntry action]
                steps := s.steps ++ [result]
                execTrace := s.execTrace ++ [action]
                previous_action := Option.some action
                previous_result := Option.some result }
          if result.success then
            ({ s1 with
                attempted_this_step := []
                retry_count := 0
                scroll_count := 0
                back_tried := false
                relaunch_tried := false
                screenshots := s1.screenshots + 1 }, false)
          else
            let s2 : LoopState :=
              { s1 with
                  attempted_this_step := s1.attempted_this_step ++ [actionKey action]
                  retry_count := s1.retry_count + 1 }
            if cfg.maxRetries ≤ s2.retry_count then
              let es := escalate cfg pkg result.error_type s2
              if es.2 then (es.1, true)
              else ({ es.1 with screenshots := es.1.screenshots + 1 }, false)
            else
              ({ s2 with screenshots := s2.screenshots + 1 }, false)

/-- The `while iteration < MAX_ITERATIONS and not is_complete` loop, driven
by fuel; each body pass increments `iteration`, so fuel `MAX_ITERATIONS`
from `iteration = 0` never runs out before the guard fails. -/
def runLoopAux (env : RunEnv) (cfg : RunConfig) (pkg : String) :
    ℕ → LoopState → LoopState
  | 0, s => s
  | fuel + 1, s =>
    if s.iteration < MAX_ITERATIONS ∧ s.is_complete = false then
      let r := loopBody env cfg pkg s
      if r.2 then r.1 else runLoopAux env cfg pkg fuel r.1
    else s

/-- The whole action loop of `Runner.run_test`, from the state after SETUP
(one initial screenshot, all counters at their initial values). -/
def runLoop (env : RunEnv) (cfg : RunConfig) (pkg : String) : LoopState :=
  runLoopAux env cfg pkg MAX_ITERATIONS {}

end Runner

/-! ### `Runner.run_test` around the loop, and `Runner.run_suite` -/

/-- `TestCase` from `agent/types.py` (setup/teardown action lists omitted:
they are never read by the Runner). -/
structure TestCase where
  id : String
  name : String
  description : String
  expected_result : String
  should_pass : Bool := true

/-- `TestResult` from `agent/types.py`; screenshots are counted rather than
pathed, and wall-clock duration is not modelled. -/
structure TestResult where
  test_case : TestCase
  status : TestStatus
  verdict : Option SupervisorVerdict := Option.none
  steps : List StepResult := []
  screenshots : ℕ := 0
  error_message : String := ""

/-- The collaborator behaviour for one `run_test` call:
`setupError = some msg` models an `AdbError(msg)` raised during SETUP
(force-stop / clear-data / launch / initial screenshot, all before the
action loop); `finalVerdict = none` models a `SupervisorError` from
`verify_test_completion`. -/
structure TestEnv where
  setupError : Option String
  runEnv : RunEnv
  finalVerdict : Option SupervisorVerdict

namespace Runner

/-- `Runner.run_test`: SETUP, the action loop, final verification, and the
`except AdbError` handler that converts a SETUP transport failure into an
ERROR-status result with the message recorded (a setup failure precedes
every `steps.append` and every `screenshots.append`, so both are empty). -/
def run_test (cfg : RunConfig) (pkg : String) (env : TestEnv)
    (test : TestCase) : TestResult :=
  match env.setupError with
  | Option.some msg =>
    { test_case := test
      status := .error
      steps := []
      screenshots := 0
      error_message := msg }
  | Option.none =>
    let s := runLoop env.runEnv cfg pkg
    match env.finalVerdict with
    | Option.some v =>
      { test_case := test
        status := v.status
        verdict := Option.some v
        steps := s.steps
        screenshots := s.screenshots }
    | Option.none =>
      { test_case := test
        status := .error
        verdict := Option.none
        steps := s.steps
        screenshots := s.screenshots }

/-- The body of `Runner.run_suite`'s `for` loop from test index `i` onward:
run each test (with its own collaborator behaviour) and collect the results;
`run_test` never raises, so every test contributes exactly one result. -/
def run_suite_from (cfg : RunConfig) (pkg : String) (envs : ℕ → TestEnv) :
    List TestCase → ℕ → List TestResult
  | [], _ => []
  | t :: rest, i =>
    run_test cfg pkg (envs i) t :: run_suite_from cfg pkg envs rest (i + 1)

/-- `Runner.run_suite`: all tests in order, one result each. -/
def run_suite (cfg : RunConfig) (pkg : String) (envs : ℕ → TestEnv)
    (tests : List TestCase) : List TestResult :=
  run_suite_from cfg pkg envs tests 0

end Runner

/-! ### Concrete collaborator behaviours used by the scenario theorems -/

/-- A planner-proposed action targeting UI text that never appears. -/
def actC1 : Action :=
  { action_type := .tap_text, params := [("text", .str "Nope")]
    description := "tap the missing element" }

/-- Collaborators for the recovery-ladder scenario: the planner always
proposes `actC1`, every execution fails with element-not-found, and the
interim probe always errors (and is swallowed). -/
def envC1 : RunEnv :=
  { planner := fun _ => Option.some { actions := [actC1] }
    exec := fun _ a =>
      { action := a, success := false, error_type := .element_not_found
        error_message := "Element not found" }
    interim := fun _ => Option.none }

/-- A planner response declaring the goal achieved, with no actions. -/
def planC4 : PlannerResponse := { actions := [], is_complete := true }

/-- Collaborators whose planner immediately reports completion. -/
def envC4 : RunEnv :=
  { planner := fun _ => Option.some planC4
    exec := fun _ a => { action := a, success := true }
    interim := fun _ => Option.none }

/-- A benign planner-proposed action that always succeeds. -/
def actC5 : Action :=
  { action_type := .back, params := [], description := "press back" }

/-- Collaborators that never report completion and always succeed, so only
the iteration ceiling can stop the loop. -/
def envC5 : RunEnv :=
  { planner := fun _ => Option.some { actions := [actC5] }
    exec := fun _ a => { action := a, success := true }
    interim := fun _ => Option.none }

/-- The test case run against `envC5`. -/
def testC5 : TestCase :=
  { id := "T5", name := "ceiling", description := "keep going"
    expected_result := "twenty steps executed" }

/-- A full-test environment around `envC5` with a clean SETUP and a passing
final verdict. -/
def testEnvC5 : TestEnv :=
  { setupError := Option.none
    runEnv := envC5
    finalVerdict := Option.some { status := .passed, evidence := "final state matches" } }

/-- First test of the two-test suite scenario (its SETUP fails). -/
def testC6a : TestCase :=
  { id := "T6a", name := "setup fails", description := "first test"
    expected_result := "unreachable" }

/-- Second test of the two-test suite scenario (runs normally). -/
def testC6b : TestCase :=
  { id := "T6b", name := "still runs", description := "second test"
    expected_result := "planner completes immediately" }

/-- Per-test collaborator behaviours for the suite scenario: the first
test's device raises `AdbError("adb: device offline")` during SETUP, the
second test completes immediately and passes. -/
def envsC6 : ℕ → TestEnv := fun i =>
  if i = 0 then
    { setupError := Option.some "adb: device offline"
      runEnv := envC4
      finalVerdict := Option.none }
  else
    { setupError := Option.none
      runEnv := envC4
      finalVerdict := Option.some { status := .passed, evidence := "goal visible" } }

/-- Collaborators exercising the recovery ladder, for the frame-effect
witness. -/
def envC10 : RunEnv :=
  { planner := fun _ => Option.some { actions := [actC1] }
    exec := fun _ a =>
      { action := a, success := false, error_type := .element_not_found
        error_message := "Element not found" }
    interim := fun _ => Option.none }

/-! ## Supporting lemmas -/

/-- Batteries' `Rat.floor` agrees with the `Int.floor` of the rational. -/
theorem ratFloor_eq_intFloor (q : ℚ) : Rat.floor q = Int.floor q := by
  rw [Rat.floor_def' q, Rat.floor_def]

/-- On nonnegative rationals, Python `int()` truncation is the floor. -/
theorem pyInt_of_nonneg {q : ℚ} (h : 0 ≤ q) : pyInt q = Int.floor q := by
  simp [pyInt, not_lt.mpr h, ratFloor_eq_intFloor]

namespace Executor

/-- `Executor.execute` always reports the action it was given. -/
theorem execute_action_field (dev : Device) (w h : ℤ) (a : Action)
    (r : StepResult) (hr : execute dev w h a = Option.some r) :
    r.action = a := by
  unfold execute at hr
  split at hr <;>
    first
      | (injection hr with h2; subst h2; rfl)
      | exact absurd hr (by simp)

/-- Attaching a screenshot does not change the recorded action. -/
theorem attachShot_action (dev : Device) (sd : Option String) (i : ℕ)
    (r : StepResult) : (attachShot dev sd i r).action = r.action := by
  unfold attachShot
  split <;> try rfl
  split <;> try rfl
  dsimp only
  split <;> rfl

/-- Attaching a screenshot does not change the success flag. -/
theorem attachShot_success (dev : Device) (sd : Option String) (i : ℕ)
    (r : StepResult) : (attachShot dev sd i r).success = r.success := by
  unfold attachShot
  split <;> try rfl
  split <;> try rfl
  dsimp only
  split <;> rfl

/-- The fail-fast contract of `execute_all`'s loop, for an arbitrary start
index: the results are a prefix of the batch in order, only the last result
may fail, a short result list ends in a failure, and each result is the
execution of the corresponding action (with its optional screenshot). -/
theorem execute_all_from_spec (dev : Device) (w h : ℤ) (sd : Option String) :
    ∀ (acts : List Action) (i : ℕ) (rs : List StepResult),
      execute_all_from dev w h sd acts i = Option.some rs →
      rs.map (·.action) <+: acts ∧
      (∀ r ∈ rs.dropLast, r.success = true) ∧
      (rs.length < acts.length →
        ∃ r, rs.getLast? = Option.some r ∧ r.success = false) ∧
      (∀ j (hj : j < rs.length) (ha : j < acts.length), ∃ r0,
        execute dev w h (acts.get ⟨j, ha⟩) = Option.some r0 ∧
          rs.get ⟨j, hj⟩ = attachShot dev sd (i + j) r0) := by
  intro acts
  induction acts with
  | nil =>
    intro i rs hrs
    unfold execute_all_from at hrs
    injection hrs with hrs
    subst hrs
    refine ⟨List.nil_prefix, by simp, by simp, ?_⟩
    intro j hj
    simp at hj
  | cons a rest ih =>
    intro i rs hrs
    unfold execute_all_from at hrs
    cases he : execute dev w h a with
    | none => rw [he] at hrs; exact absurd hrs (by simp)
    | some r0 =>
      rw [he] at hrs
      dsimp only at hrs
      by_cases hs : (attachShot dev sd i r0).success = true
      · rw [if_pos hs] at hrs
        rcases Option.map_eq_some'.mp hrs with ⟨rs', hrs', rfl⟩
        obtain ⟨ihpre, ihmid, ihlast, ihget⟩ := ih (i + 1) rs' hrs'
        have hact : (attachShot dev sd i r0).action = a := by
          rw [attachShot_action]
          exact execute_action_field dev w h a r0 he
        refine ⟨?_, ?_, ?_, ?_⟩
        · simpa [hact, List.cons_prefix_cons] using ihpre
        · intro r hr
          cases rs' with
          | nil => simp at hr
          | cons b bs =>
            rw [List.dropLast_cons₂] at hr
            rcases List.mem_cons.mp hr with rfl | hr'
            · exact hs
            · exact ihmid r hr'
        · intro hlen
          simp only [List.length_cons, Nat.add_lt_add_iff_right] at hlen
          obtain ⟨rlast, hrlast, hrfail⟩ := ihlast hlen
          cases rs' with
          | nil => simp at hrlast
          | cons b bs =>
            exact ⟨rlast, by simp [hrlast], hrfail⟩
        · intro j hj ha
          cases j with
          | zero =>
            refine ⟨r0, he, ?_⟩
            simp
          | succ jj =>
            simp only [List.length_cons, Nat.succ_lt_succ_iff] at hj ha
            obtain ⟨r1, hr1, hr1eq⟩ := ihget jj hj ha
            refine ⟨r1, by simpa using hr1, ?_⟩
            have hidx : i + (jj + 1) = i + 1 + jj := by omega
            rw [List.get_cons_succ, hidx]
            exact hr1eq
      · rw [if_neg hs] at hrs
        injection hrs with hrs
        subst hrs
        refine ⟨?_, by simp, ?_, ?_⟩
        · have hact : (attachShot dev sd i r0).action = a := by
            rw [attachShot_action]
            exact execute_action_field dev w h a r0 he
          simp [hact, List.cons_prefix_cons]
        · intro _
          exact ⟨attachShot dev sd i r0, rfl, by simpa using hs⟩
        · intro j hj ha
          have hj0 : j = 0 := by
            simp only [List.length_cons, List.length_nil] at hj
            omega
          subst hj0
          exact ⟨r0, he, by simp⟩

end Executor

namespace AdbController

/-- One pass of the extraction loop appends exactly the node's
contribution. -/
theorem dumpStep_eq (acc : List String) (n : UiNode) :
    dumpStep acc n = acc ++ nodeTexts n := by
  unfold dumpStep nodeTexts
  split_ifs <;> simp

/-- The extraction loop is the in-order concatenation of per-node
contributions. -/
theorem foldl_dumpStep (nodes : List UiNode) :
    ∀ acc : List String,
      nodes.foldl dumpStep acc = acc ++ nodes.flatMap nodeTexts := by
  induction nodes with
  | nil => intro acc; simp
  | cons n rest ih =>
    intro acc
    simp [List.foldl_cons, dumpStep_eq, ih, List.flatMap_cons, List.append_assoc]

/-- A single node's contribution is duplicate-free: the guards skip a
content-desc equal to the text and a hint equal to either. -/
theorem nodeTexts_nodup (n : UiNode) : (nodeTexts n).Nodup := by
  unfold nodeTexts
  split_ifs <;> simp_all <;> tauto

end AdbController

namespace Runner

/-- Rung 1 of the escalation ladder: element-not-found with scroll budget
left issues the scroll swipe, increments the scroll counter and resets the
retry counter. -/
theorem escalate_scroll (cfg : RunConfig) (pkg : String) (e : ErrorType)
    (s : LoopState)
    (h : e = ErrorType.element_not_found ∧ s.scroll_count < cfg.maxScrolls) :
    escalate cfg pkg e s =
      ({ s with
          recoveryTrace := s.recoveryTrace ++ [.swipe 540 1500 540 500 300]
          scroll_count := s.scroll_count + 1
          retry_count := 0 }, false) := by
  simp [escalate, h]

/-- Rung 2: otherwise, if back has not been tried, press back once and reset
the retry counter. -/
theorem escalate_back (cfg : RunConfig) (pkg : String) (e : ErrorType)
    (s : LoopState)
    (h : ¬(e = ErrorType.element_not_found ∧ s.scroll_count < cfg.maxScrolls))
    (hb : s.back_tried = false) :
    escalate cfg pkg e s =
      ({ s with
          recoveryTrace := s.recoveryTrace ++ [.back]
          back_tried := true
          retry_count := 0 }, false) := by
  simp [escalate, h, hb]

/-- Rung 3: otherwise, if relaunch has not been tried, relaunch the app once
and reset the retry counter. -/
theorem escalate_relaunch (cfg : RunConfig) (pkg : String) (e : ErrorType)
    (s : LoopState)
    (h : ¬(e = ErrorType.element_not_found ∧ s.scroll_count < cfg.maxScrolls))
    (hb : s.back_tried = true) (hr : s.relaunch_tried = false) :
    escalate cfg pkg e s =
      ({ s with
          recoveryTrace := s.recoveryTrace ++ [.relaunch_app (.str pkg)]
          relaunch_tried := true
          retry_count := 0 }, false) := by
  simp [escalate, h, hb, hr]

/-- Rung 4: with every option spent, the ladder aborts the action loop. -/
theorem escalate_abort (cfg : RunConfig) (pkg : String) (e : ErrorType)
    (s : LoopState)
    (h : ¬(e = ErrorType.element_not_found ∧ s.scroll_count < cfg.maxScrolls))
    (hb : s.back_tried = true) (hr : s.relaunch_tried = true) :
    escalate cfg pkg e s = (s, true) := by
  simp [escalate, h, hb, hr]

/-- The ladder never touches the recorded steps, the action history, the
attempted-actions list, the executor trace, or the iteration counter. -/
theorem escalate_frame (cfg : RunConfig) (pkg : String) (e : ErrorType)
    (s : LoopState) :
    (escalate cfg pkg e s).1.steps = s.steps ∧
    (escalate cfg pkg e s).1.action_history = s.action_history ∧
    (escalate cfg pkg e s).1.attempted_this_step = s.attempted_this_step ∧
    (escalate cfg pkg e s).1.execTrace = s.execTrace ∧
    (escalate cfg pkg e s).1.iteration = s.iteration := by
  unfold escalate
  split_ifs <;> simp

/-- Each pass of the loop body increments the iteration counter exactly
once. -/
theorem loopBody_iteration (env : RunEnv) (cfg : RunConfig) (pkg : String)
    (s : LoopState) : (loopBody env cfg pkg s).1.iteration = s.iteration + 1 := by
  unfold loopBody
  dsimp only
  split
  · rfl
  · split
    · rfl
    · split
      · rfl
      · split
        · rfl
        · split
          · rfl
          · split
            · split
              · exact (escalate_frame cfg pkg _ _).2.2.2.2
              · exact (escalate_frame cfg pkg _ _).2.2.2.2
            · rfl

/-- The loop driver never pushes the iteration counter past the ceiling. -/
theorem runLoopAux_iteration_le (env : RunEnv) (cfg : RunConfig) (pkg : String) :
    ∀ (fuel : ℕ) (s : LoopState), s.iteration ≤ MAX_ITERATIONS →
      (runLoopAux env cfg pkg fuel s).iteration ≤ MAX_ITERATIONS := by
  intro fuel
  induction fuel with
  | zero => intro s h; exact h
  | succ n ih =>
    intro s h
    unfold runLoopAux
    dsimp only
    split
    · rename_i hg
      have hit := loopBody_iteration env cfg pkg s
      split
      · omega
      · exact ih _ (by omega)
    · exact h

/-- The whole action loop is bounded by the iteration ceiling. -/
theorem runLoop_iteration_le (env : RunEnv) (cfg : RunConfig) (pkg : String) :
    (runLoop env cfg pkg).iteration ≤ MAX_ITERATIONS :=
  runLoopAux_iteration_le env cfg pkg MAX_ITERATIONS {} (by simp [MAX_ITERATIONS])

/-- Any command the ladder adds to the recovery trace is one of the three
recovery gestures. -/
theorem escalate_recovery (cfg : RunConfig) (pkg : String) (e : ErrorType)
    (s : LoopState) :
    ∀ c ∈ (escalate cfg pkg e s).1.recoveryTrace,
      c ∈ s.recoveryTrace ∨ c = .swipe 540 1500 540 500 300 ∨ c = .back ∨
        c = .relaunch_app (.str pkg) := by
  unfold escalate
  split_ifs <;> intro c hc <;> simp at hc <;> tauto

/-- One pass of the loop body preserves the bookkeeping invariant: the step
results are exactly the results of the executed planner actions, and the
action-description history mirrors the executed actions. -/
theorem loopBody_records (env : RunEnv) (cfg : RunConfig) (pkg : String)
    (s : LoopState) (hex : ∀ i a, (env.exec i a).action = a)
    (h1 : s.steps.map (·.action) = s.execTrace)
    (h2 : s.action_history = s.execTrace.map historyEntry) :
    (loopBody env cfg pkg s).1.steps.map (·.action) =
        (loopBody env cfg pkg s).1.execTrace ∧
      (loopBody env cfg pkg s).1.action_history =
        (loopBody env cfg pkg s).1.execTrace.map historyEntry := by
  unfold loopBody
  dsimp only
  split
  · exact ⟨h1, h2⟩
  · split
    · exact ⟨h1, h2⟩
    · split
      · exact ⟨h1, h2⟩
      · split
        · exact ⟨h1, h2⟩
        · split
          · constructor <;> simp [h1, h2, hex]
          · split
            · split
              · constructor
                · rw [(escalate_frame cfg pkg _ _).1,
                    (escalate_frame cfg pkg _ _).2.2.2.1]
                  simp [h1, hex]
                · rw [(escalate_frame cfg pkg _ _).2.1,
                    (escalate_frame cfg pkg _ _).2.2.2.1]
                  simp [h2, hex]
              · constructor
                · rw [(escalate_frame cfg pkg _ _).1,
                    (escalate_frame cfg pkg _ _).2.2.2.1]
                  simp [h1, hex]
                · rw [(escalate_frame cfg pkg _ _).2.1,
                    (escalate_frame cfg pkg _ _).2.2.2.1]
                  simp [h2, hex]
            · constructor <;> simp [h1, h2, hex]

/-- One pass of the loop body only ever adds recovery gestures to the
recovery trace. -/
theorem loopBody_recovery (env : RunEnv) (cfg : RunConfig) (pkg : String)
    (s : LoopState) :
    ∀ c ∈ (loopBody env cfg pkg s).1.recoveryTrace,
      c ∈ s.recoveryTrace ∨ c = .swipe 540 1500 540 500 300 ∨ c = .back ∨
        c = .relaunch_app (.str pkg) := by
  unfold loopBody
  dsimp only
  split
  · intro c hc; exact Or.inl hc
  · split
    · intro c hc; exact Or.inl hc
    · split
      · intro c hc; exact Or.inl hc
      · split
        · intro c hc; exact Or.inl hc
        · split
          · intro c hc; exact Or.inl hc
          · split
            · split
              · intro c hc
                rcases escalate_recovery cfg pkg _ _ c hc with h | h
                · exact Or.inl h
                · exact Or.inr h
              · intro c hc
                rcases escalate_recovery cfg pkg _ _ c hc with h | h
                · exact Or.inl h
                · exact Or.inr h
            · intro c hc; exact Or.inl hc

/-- The bookkeeping invariant is preserved by the loop driver. -/
theorem runLoopAux_records (env : RunEnv) (cfg : RunConfig) (pkg : String)
    (hex : ∀ i a, (env.exec i a).action = a) :
    ∀ (fuel : ℕ) (s : LoopState),
      s.steps.map (·.action) = s.execTrace →
      s.action_history = s.execTrace.map historyEntry →
      (runLoopAux env cfg pkg fuel s).steps.map (·.action) =
          (runLoopAux env cfg pkg fuel s).execTrace ∧
        (runLoopAux env cfg pkg fuel s).action_history =
          (runLoopAux env cfg pkg fuel s).execTrace.map historyEntry := by
  intro fuel
  induction fuel with
  | zero => intro s h1 h2; exact ⟨h1, h2⟩
  | succ n ih =>
    intro s h1 h2
    unfold runLoopAux
    dsimp only
    split
    · have hb := loopBody_records env cfg pkg s hex h1 h2
      split
      · exact hb
      · exact ih _ hb.1 hb.2
    · exact ⟨h1, h2⟩

/-- The recovery-gesture invariant is preserved by the loop driver. -/
theorem runLoopAux_recovery (env : RunEnv) (cfg : RunConfig) (pkg : String) :
    ∀ (fuel : ℕ) (s : LoopState),
      (∀ c ∈ s.recoveryTrace,
        c = DeviceCmd.swipe 540 1500 540 500 300 ∨ c = DeviceCmd.back ∨
          c = DeviceCmd.relaunch_app (.str pkg)) →
      ∀ c ∈ (runLoopAux env cfg pkg fuel s).recoveryTrace,
        c = DeviceCmd.swipe 540 1500 540 500 300 ∨ c = DeviceCmd.back ∨
          c = DeviceCmd.relaunch_app (.str pkg) := by
  intro fuel
  induction fuel with
  | zero => intro s h; exact h
  | succ n ih =>
    intro s h
    unfold runLoopAux
    dsimp only
    split
    · have hb := loopBody_recovery env cfg pkg s
      split
      · intro c hc
        rcases hb c hc with h' | h'
        · exact h c h'
        · exact h'
      · refine ih _ ?_
        intro c hc
        rcases hb c hc with h' | h'
        · exact h c h'
        · exact h'
    · exact h

/-- Over a whole run, the recorded steps are exactly the results of the
planner actions handed to the Executor, in order. -/
theorem runLoop_records (env : RunEnv) (cfg : RunConfig) (pkg : String)
    (hex : ∀ i a, (env.exec i a).action = a) :
    (runLoop env cfg pkg).steps.map (·.action) = (runLoop env cfg pkg).execTrace ∧
      (runLoop env cfg pkg).action_history =
        (runLoop env cfg pkg).execTrace.map historyEntry :=
  runLoopAux_records env cfg pkg hex MAX_ITERATIONS {} rfl rfl

/-- Over a whole run, everything in the recovery trace is one of the three
recovery gestures. -/
theorem runLoop_recovery (env : RunEnv) (cfg : RunConfig) (pkg : String) :
    ∀ c ∈ (runLoop env cfg pkg).recoveryTrace,
      c = DeviceCmd.swipe 540 1500 540 500 300 ∨ c = DeviceCmd.back ∨
        c = DeviceCmd.relaunch_app (.str pkg) :=
  runLoopAux_recovery env cfg pkg MAX_ITERATIONS {} (by intro c hc; simp at hc)

/-- When the probe does not fire and the planner reports completion, the
loop body marks the test complete and breaks without touching any record. -/
theorem loopBody_complete (env : RunEnv) (cfg : RunConfig) (pkg : String)
    (s : LoopState) (plan : PlannerResponse)
    (hp : probeFires env (s.iteration + 1) = false)
    (hpl : env.planner (s.iteration + 1) = Option.some plan)
    (hc : plan.is_complete = true) :
    loopBody env cfg pkg s =
      ({ s with iteration := s.iteration + 1, is_complete := true }, true) := by
  unfold loopBody
  dsimp only
  rw [hp, hpl]
  simp [hc]

/-- When the retry counter reaches the configured maximum on an
element-not-found failure with scroll budget left, the loop body issues the
scroll gesture, increments the scroll counter and resets the retry
counter. -/
theorem loopBody_escalates (env : RunEnv) (cfg : RunConfig) (pkg : String)
    (s : LoopState) (plan : PlannerResponse) (action : Action)
    (tail : List Action)
    (hp : probeFires env (s.iteration + 1) = false)
    (hpl : env.planner (s.iteration + 1) = Option.some plan)
    (hc : plan.is_complete = false)
    (ha : plan.actions = action :: tail)
    (hfail : (env.exec (s.iteration + 1) action).success = false)
    (hmax : cfg.maxRetries ≤ s.retry_count + 1)
    (hkind : (env.exec (s.iteration + 1) action).error_type =
      ErrorType.element_not_found)
    (hscroll : s.scroll_count < cfg.maxScrolls) :
    loopBody env cfg pkg s =
      ({ s with
          iteration := s.iteration + 1
          steps := s.steps ++ [env.exec (s.iteration + 1) action]
          action_history := s.action_history ++ [historyEntry action]
          execTrace := s.execTrace ++ [action]
          previous_action := Option.some action
          previous_result := Option.some (env.exec (s.iteration + 1) action)
          attempted_this_step := s.attempted_this_step ++ [actionKey action]
          retry_count := 0
          scroll_count := s.scroll_count + 1
          recoveryTrace := s.recoveryTrace ++ [.swipe 540 1500 540 500 300]
          screenshots := s.screenshots + 1 }, false) := by
  unfold loopBody
  dsimp only
  rw [hp, hpl]
  simp [hc, ha, hfail, hmax, hkind, hscroll, escalate_scroll]

/-- A device-transport error during SETUP yields an ERROR result with no
steps, no screenshots, and the message recorded. -/
theorem run_test_setup_error (cfg : RunConfig) (pkg : String) (env : TestEnv)
    (test : TestCase) (msg : String) (h : env.setupError = Option.some msg) :
    run_test cfg pkg env test =
      { test_case := test
        status := .error
        steps := []
        screenshots := 0
        error_message := msg } := by
  unfold run_test
  rw [h]

/-- The suite loop from any start index yields one result per test. -/
theorem run_suite_from_length (cfg : RunConfig) (pkg : String)
    (envs : ℕ → TestEnv) :
    ∀ (tests : List TestCase) (i : ℕ),
      (run_suite_from cfg pkg envs tests i).length = tests.length := by
  intro tests
  induction tests with
  | nil => intro i; rfl
  | cons t rest ih => intro i; simp [run_suite_from, ih]

/-- The suite loop yields one result per test: no per-test failure stops
the remaining tests from running. -/
theorem run_suite_length (cfg : RunConfig) (pkg : String) (envs : ℕ → TestEnv)
    (tests : List TestCase) :
    (run_suite cfg pkg envs tests).length = tests.length :=
  run_suite_from_length cfg pkg envs tests 0

end Runner

/-! ## Claim theorems -/

open Runner

/-- Claim C1: when the per-step retry counter reaches the configured maximum
after consecutive failures, the escalation ladder runs in the fixed order
scroll (while the failure kind is element-not-found and scroll budget
remains) → back (once) → relaunch (once) → abort, each used rung resetting
the retry counter; in particular, when the retry threshold is reached on
element-not-found failures the recovery action issued is a scroll gesture
until the scroll budget is exhausted, as the `envC1` scenario's recovery
trace (three scrolls, then back) shows. -/
theorem C1_escalation_ladder :
    (∀ (cfg : RunConfig) (pkg : String) (e : ErrorType) (s : LoopState),
      e = ErrorType.element_not_found ∧ s.scroll_count < cfg.maxScrolls →
      escalate cfg pkg e s =
        ({ s with
            recoveryTrace := s.recoveryTrace ++ [.swipe 540 1500 540 500 300]
            scroll_count := s.scroll_count + 1
            retry_count := 0 }, false)) ∧
    (∀ (cfg : RunConfig) (pkg : String) (e : ErrorType) (s : LoopState),
      ¬(e = ErrorType.element_not_found ∧ s.scroll_count < cfg.maxScrolls) →
      s.back_tried = false →
      escalate cfg pkg e s =
        ({ s with
            recoveryTrace := s.recoveryTrace ++ [.back]
            back_tried := true
            retry_count := 0 }, false)) ∧
    (∀ (cfg : RunConfig) (pkg : String) (e : ErrorType) (s : LoopState),
      ¬(e = ErrorType.element_not_found ∧ s.scroll_count < cfg.maxScrolls) →
      s.back_tried = true → s.relaunch_tried = false →
      escalate cfg pkg e s =
        ({ s with
            recoveryTrace := s.recoveryTrace ++ [.relaunch_app (.str pkg)]
            relaunch_tried := true
            retry_count := 0 }, false)) ∧
    (∀ (cfg : RunConfig) (pkg : String) (e : ErrorType) (s : LoopState),
      ¬(e = ErrorType.element_not_found ∧ s.scroll_count < cfg.maxScrolls) →
      s.back_tried = true → s.relaunch_tried = true →
      escalate cfg pkg e s = (s, true)) ∧
    (∀ (env : RunEnv) (cfg : RunConfig) (pkg : String) (s : LoopState)
      (plan : PlannerResponse) (action : Action) (tail : List Action),
      probeFires env (s.iteration + 1) = false →
      env.planner (s.iteration + 1) = Option.some plan →
      plan.is_complete = false →
      plan.actions = action :: tail →
      (env.exec (s.iteration + 1) action).success = false →
      cfg.maxRetries ≤ s.retry_count + 1 →
      (env.exec (s.iteration + 1) action).error_type =
        ErrorType.element_not_found →
      s.scroll_count < cfg.maxScrolls →
      loopBody env cfg pkg s =
        ({ s with
            iteration := s.iteration + 1
            steps := s.steps ++ [env.exec (s.iteration + 1) action]
            action_history := s.action_history ++ [historyEntry action]
            execTrace := s.execTrace ++ [action]
            previous_action := Option.some action
            previous_result := Option.some (env.exec (s.iteration + 1) action)
            attempted_this_step := s.attempted_this_step ++ [actionKey action]
            retry_count := 0
            scroll_count := s.scroll_count + 1
            recoveryTrace := s.recoveryTrace ++ [.swipe 540 1500 540 500 300]
            screenshots := s.screenshots + 1 }, false)) ∧
    ((runLoop envC1 {} "md.obsidian").recoveryTrace =
        [.swipe 540 1500 540 500 300, .swipe 540 1500 540 500 300,
          .swipe 540 1500 540 500 300, .back] ∧
      (runLoop envC1 {} "md.obsidian").iteration = 20 ∧
      (runLoop envC1 {} "md.obsidian").is_complete = false) :=
  ⟨escalate_scroll, escalate_back, escalate_relaunch, escalate_abort,
    fun env cfg pkg s plan action tail hp hpl hc ha hfail hmax hkind hscroll =>
      loopBody_escalates env cfg pkg s plan action tail hp hpl hc ha hfail
        hmax hkind hscroll,
    by decide, by decide, by decide⟩

/-- Witness for C1: the first ladder rung applied to the initial state on an
element-not-found failure issues exactly the scroll swipe. -/
theorem C1_escalation_ladder_witness :
    escalate {} "md.obsidian" ErrorType.element_not_found {} =
      ({ recoveryTrace := [DeviceCmd.swipe 540 1500 540 500 300]
         scroll_count := 1 }, false) := by
  have h := C1_escalation_ladder.1 {} "md.obsidian" ErrorType.element_not_found
    {} ⟨rfl, by decide⟩
  simpa using h

/-- Claim C2 counterexample: a tap action with no parameters is classified
`unknown`, not `invalid_params`, because `_do_tap` raises its
missing-parameter `ExecutorError` without an explicit error type. -/
theorem C2_missing_params_counterexample :
    Executor.execute (fun _ => Option.none) 1080 1920
        { action_type := .tap, params := [] } =
      Option.some
        { action := { action_type := .tap, params := [] }
          success := false
          error_type := .unknown
          error_message := "tap requires 'x' and 'y' params" } ∧
      ErrorType.unknown ≠ ErrorType.invalid_params := by
  constructor
  · decide
  · decide

/-- Claim C2 as amended: for every action with a missing (or falsy, where
the code tests truthiness) required parameter, `Executor.execute` returns a
failed `StepResult` without raising; the classification is `invalid_params`
for every action kind except tap and tap-by-text, whose handlers raise the
missing-parameter error without an explicit kind and therefore classify as
`unknown`. -/
theorem C2_missing_params_classification (dev : Device) (w h : ℤ) (a : Action) :
    (a.action_type = .tap →
      (a.params.get "x" = Option.none ∨ a.params.get "y" = Option.none) →
      Executor.execute dev w h a = Option.some
        { action := a
          success := false
          error_type := .unknown
          error_message := "tap requires 'x' and 'y' params" }) ∧
    (a.action_type = .tap_text →
      (a.params.getD "text" (.str "")).truthy = false →
      Executor.execute dev w h a = Option.some
        { action := a
          success := false
          error_type := .unknown
          error_message := "tap_text requires 'text' param" }) ∧
    (a.action_type = .swipe →
      (a.params.get "x1" = Option.none ∨ a.params.get "y1" = Option.none ∨
        a.params.get "x2" = Option.none ∨ a.params.get "y2" = Option.none) →
      Executor.execute dev w h a = Option.some
        { action := a
          success := false
          error_type := .invalid_params
          error_message := "swipe requires 'x1', 'y1', 'x2', 'y2' params" }) ∧
    (a.action_type = .type_text →
      (a.params.getD "text" (.str "")).truthy = false →
      Executor.execute dev w h a = Option.some
        { action := a
          success := false
          error_type := .invalid_params
          error_message := "type_text requires 'text' param" }) ∧
    (a.action_type = .tap_and_type →
      (a.params.getD "target_text" (.str "")).truthy = false →
      Executor.execute dev w h a = Option.some
        { action := a
          success := false
          error_type := .invalid_params
          error_message := "tap_and_type requires 'target_text' param" }) ∧
    (a.action_type = .tap_and_type →
      (a.params.getD "target_text" (.str "")).truthy = true →
      (a.params.getD "input_text" (.str "")).truthy = false →
      Executor.execute dev w h a = Option.some
        { action := a
          success := false
          error_type := .invalid_params
          error_message := "tap_and_type requires 'input_text' param" }) ∧
    (a.action_type = .key_event →
      a.params.get "key_code" = Option.none →
      Executor.execute dev w h a = Option.some
        { action := a
          success := false
          error_type := .invalid_params
          error_message := "key_event requires 'key_code' param" }) ∧
    (a.action_type = .launch_app →
      (a.params.getD "package" (.str "")).truthy = false →
      Executor.execute dev w h a = Option.some
        { action := a
          success := false
          error_type := .invalid_params
          error_message := "launch_app requires 'package' param" }) ∧
    (a.action_type = .force_stop →
      (a.params.getD "package" (.str "")).truthy = false →
      Executor.execute dev w h a = Option.some
        { action := a
          success := false
          error_type := .invalid_params
          error_message := "force_stop requires 'package' param" }) ∧
    (a.action_type = .clear_data →
      (a.params.getD "package" (.str "")).truthy = false →
      Executor.execute dev w h a = Option.some
        { action := a
          success := false
          error_type := .invalid_params
          error_message := "clear_data requires 'package' param" }) ∧
    (a.action_type = .relaunch_app →
      (a.params.getD "package" (.str "")).truthy = false →
      Executor.execute dev w h a = Option.some
        { action := a
          success := false
          error_type := .invalid_params
          error_message := "relaunch_app requires 'package' param" }) ∧
    (a.action_type = .scroll_until_text →
      (a.params.getD "text" (.str "")).truthy = false →
      Executor.execute dev w h a = Option.some
        { action := a
          success := false
          error_type := .invalid_params
          error_message := "scroll_until_text requires 'text' param" }) := by
  obtain ⟨t, p, dsc⟩ := a
  refine ⟨?_, ?_, ?_, ?_, ?_, ?_, ?_, ?_, ?_, ?_, ?_, ?_⟩ <;>
    rintro rfl hmiss
  · rcases hmiss with hx | hy
    · rcases hy2 : Params.get p "y" with _ | v <;>
        simp [Executor.execute, Executor.execute_action, Executor.do_tap, hx, hy2]
    · rcases hx2 : Params.get p "x" with _ | v <;>
        simp [Executor.execute, Executor.execute_action, Executor.do_tap, hy, hx2]
  · simp [Executor.execute, Executor.execute_action, Executor.do_tap_text, hmiss]
  · rcases h1 : Params.get p "x1" with _ | v1 <;>
      rcases h2 : Params.get p "y1" with _ | v2 <;>
      rcases h3 : Params.get p "x2" with _ | v3 <;>
      rcases h4 : Params.get p "y2" with _ | v4 <;>
      simp_all [Executor.execute, Executor.execute_action, Executor.do_swipe]
  · simp [Executor.execute, Executor.execute_action, hmiss]
  · simp [Executor.execute, Executor.execute_action, hmiss]
  · intro hinp
    simp [Executor.execute, Executor.execute_action, hmiss, hinp]
  · simp [Executor.execute, Executor.execute_action, hmiss]
  · simp [Executor.execute, Executor.execute_action, hmiss]
  · simp [Executor.execute, Executor.execute_action, hmiss]
  · simp [Executor.execute, Executor.execute_action, hmiss]
  · simp [Executor.execute, Executor.execute_action, hmiss]
  · simp [Executor.execute, Executor.execute_action,
      Executor.do_scroll_until_text, hmiss]

/-- Witness for C2: a launch-app action without a package is classified
`invalid_params` and does not raise. -/
theorem C2_missing_params_classification_witness :
    Executor.execute (fun _ => Option.none) 1080 1920
        { action_type := .launch_app, params := [] } =
      Option.some
        { action := { action_type := .launch_app, params := [] }
          success := false
          error_type := .invalid_params
          error_message := "launch_app requires 'package' param" } := by
  have h := C2_missing_params_classification (fun _ => Option.none) 1080 1920
    { action_type := .launch_app, params := [] }
  exact h.2.2.2.2.2.2.2.1 rfl (by decide)

/-- Claim C3 counterexample: the literal status string "passed" is neither
"PASSED" nor "FAILED", yet the parser resolves it to PASSED, because the
status is uppercased before comparison. -/
theorem C3_fail_closed_counterexample :
    "passed" ≠ "PASSED" ∧ "passed" ≠ "FAILED" ∧
      (Supervisor.parse_response { status := Option.some "passed" }).status =
        TestStatus.passed := by
  refine ⟨by decide, by decide, ?_⟩
  decide

/-- Claim C3 as amended: any response whose status string does not uppercase
to "PASSED" (in particular "MAYBE", or a missing status) resolves to FAILED
and never to PASSED, without raising, and a missing confidence field
resolves to the neutral default 0.5. -/
theorem C3_fail_closed_parse (d : SupResponse)
    (h : ∀ str, d.status = Option.some str → pyUpper str ≠ "PASSED") :
    ((Supervisor.parse_response d).status = TestStatus.failed ∧
      (Supervisor.parse_response d).status ≠ TestStatus.passed) ∧
    (d.confidence = Option.none →
      (Supervisor.parse_response d).confidence = 1/2) := by
  have hne : pyUpper (d.status.getD "") ≠ "PASSED" := by
    cases hs : d.status with
    | none => simp [pyUpper]
    | some str => simpa using h str hs
  unfold Supervisor.parse_response
  refine ⟨?_, ?_⟩
  · dsimp only
    rw [if_neg hne]
    split <;> simp
  · intro hc
    simp [hc]

/-- Witness for C3: the status string "MAYBE" with no confidence resolves to
FAILED with confidence 0.5. -/
theorem C3_fail_closed_parse_witness :
    (Supervisor.parse_response { status := Option.some "MAYBE" }).status =
        TestStatus.failed ∧
      (Supervisor.parse_response { status := Option.some "MAYBE" }).confidence =
        1/2 := by
  have h := C3_fail_closed_parse { status := Option.some "MAYBE" }
    (by intro str hstr; cases hstr; decide)
  exact ⟨h.1.1, h.2 rfl⟩

/-- Claim C4: in any iteration where the planner (reached because the probe
did not fire) returns `is_complete = true`, the loop body records no step,
hands nothing to the Executor, marks the test complete and breaks; the
`envC4` scenario completes in one iteration with no Executor calls. -/
theorem C4_complete_skips_execution :
    (∀ (env : RunEnv) (cfg : RunConfig) (pkg : String) (s : LoopState)
      (plan : PlannerResponse),
      probeFires env (s.iteration + 1) = false →
      env.planner (s.iteration + 1) = Option.some plan →
      plan.is_complete = true →
      loopBody env cfg pkg s =
          ({ s with iteration := s.iteration + 1, is_complete := true }, true) ∧
        (loopBody env cfg pkg s).1.steps = s.steps ∧
        (loopBody env cfg pkg s).1.execTrace = s.execTrace) ∧
    runLoop envC4 {} "md.obsidian" = { iteration := 1, is_complete := true } := by
  refine ⟨?_, by decide⟩
  intro env cfg pkg s plan hp hpl hc
  have h := loopBody_complete env cfg pkg s plan hp hpl hc
  exact ⟨h, by rw [h], by rw [h]⟩

/-- Witness for C4: against `envC4` the first loop pass terminates the test
with no recorded step. -/
theorem C4_complete_skips_execution_witness :
    loopBody envC4 {} "md.obsidian" {} =
        ({ iteration := 1, is_complete := true }, true) ∧
      (loopBody envC4 {} "md.obsidian" {}).1.steps = [] := by
  have h := C4_complete_skips_execution.1 envC4 {} "md.obsidian" {} planC4
    (by decide) rfl rfl
  exact ⟨by simpa using h.1, by simpa using h.2.1⟩

/-- Claim C5: the per-test action loop is bounded by the hard iteration
ceiling of 20 for every collaborator behaviour; with 20 consecutive
incomplete planner responses and one benign successful action each, the
loop stops exactly at iteration 20 with 20 recorded steps and the test
proceeds to final verification. -/
theorem C5_iteration_ceiling :
    MAX_ITERATIONS = 20 ∧
    (∀ (env : RunEnv) (cfg : RunConfig) (pkg : String),
      (runLoop env cfg pkg).iteration ≤ MAX_ITERATIONS) ∧
    (runLoop envC5 {} "md.obsidian").iteration = 20 ∧
    (runLoop envC5 {} "md.obsidian").steps.length = 20 ∧
    (runLoop envC5 {} "md.obsidian").is_complete = false ∧
    (run_test {} "md.obsidian" testEnvC5 testC5).steps.length = 20 ∧
    (run_test {} "md.obsidian" testEnvC5 testC5).status = TestStatus.passed :=
  ⟨rfl, runLoop_iteration_le, by decide, by decide, by decide, by decide,
    by decide⟩

/-- Claim C6: a device-transport error during SETUP makes `run_test` return
an ERROR-status result with zero steps and the message recorded, without
raising past `run_test`; the suite loop still produces one result per test,
and in the two-test scenario the second test runs and passes. -/
theorem C6_setup_error_isolated :
    (∀ (cfg : RunConfig) (pkg : String) (env : TestEnv) (test : TestCase)
      (msg : String), env.setupError = Option.some msg →
      run_test cfg pkg env test =
        { test_case := test
          status := .error
          steps := []
          screenshots := 0
          error_message := msg }) ∧
    (∀ (cfg : RunConfig) (pkg : String) (envs : ℕ → TestEnv)
      (tests : List TestCase),
      (run_suite cfg pkg envs tests).length = tests.length) ∧
    ((run_suite {} "md.obsidian" envsC6 [testC6a, testC6b]).map (·.status) =
        [TestStatus.error, TestStatus.passed] ∧
      (run_suite {} "md.obsidian" envsC6 [testC6a, testC6b]).map
          (·.steps.length) = [0, 0] ∧
      (run_suite {} "md.obsidian" envsC6 [testC6a, testC6b]).map
          (·.error_message) = ["adb: device offline", ""]) :=
  ⟨run_test_setup_error, run_suite_length, by decide, by decide, by decide⟩

/-- Witness for C6: a SETUP failure with a concrete message yields the
ERROR result with no steps. -/
theorem C6_setup_error_isolated_witness :
    run_test {} "md.obsidian"
        { setupError := Option.some "adb: device offline"
          runEnv := envC4
          finalVerdict := Option.none } testC6a =
      { test_case := testC6a
        status := .error
        steps := []
        screenshots := 0
        error_message := "adb: device offline" } :=
  C6_setup_error_isolated.1 {} "md.obsidian" _ testC6a "adb: device offline" rfl

/-- Claim C7: `execute_all` executes in order and stops at the first failed
step: the results correspond one-to-one, in order, to a prefix of the
batch; every result before the last succeeds; a result list shorter than
the batch ends in a failure; a failed result is always the last; and each
result is the execution of its action (with the optional screenshot
attached). -/
theorem C7_execute_all_fail_fast (dev : Device) (w h : ℤ) (sd : Option String)
    (actions : List Action) (rs : List StepResult)
    (hrs : Executor.execute_all dev w h sd actions = Option.some rs) :
    rs.map (·.action) <+: actions ∧
    (∀ r ∈ rs.dropLast, r.success = true) ∧
    (∀ j (hj : j < rs.length), (rs.get ⟨j, hj⟩).success = false →
      rs.length = j + 1) ∧
    (rs.length < actions.length →
      ∃ r, rs.getLast? = Option.some r ∧ r.success = false) ∧
    (∀ j (hj : j < rs.length) (ha : j < actions.length), ∃ r0,
      Executor.execute dev w h (actions.get ⟨j, ha⟩) = Option.some r0 ∧
        rs.get ⟨j, hj⟩ = Executor.attachShot dev sd j r0) := by
  obtain ⟨h1, h2, h3, h4⟩ :=
    Executor.execute_all_from_spec dev w h sd actions 0 rs hrs
  refine ⟨h1, h2, ?_, h3, ?_⟩
  · intro j hj hfail
    by_contra hne
    have hjd : j < rs.dropLast.length := by
      simp only [List.length_dropLast]
      omega
    have hmem : rs.get ⟨j, hj⟩ ∈ rs.dropLast := by
      have hgd : rs.dropLast.get ⟨j, hjd⟩ = rs.get ⟨j, hj⟩ := by
        simp [List.getElem_dropLast]
      rw [← hgd]
      exact List.get_mem _ _ _
    rw [h2 _ hmem] at hfail
    exact absurd hfail (by simp)
  · intro j hj ha
    simpa using h4 j hj ha

/-- Witness for C7: a one-action batch that succeeds returns its single
result, a prefix of the batch. -/
theorem C7_execute_all_fail_fast_witness :
    ([StepResult.mk actC5 true .none "" Option.none].map (·.action)) <+:
      [actC5] := by
  have h := C7_execute_all_fail_fast (fun _ => Option.none) 1080 1920
    Option.none [actC5] [StepResult.mk actC5 true .none "" Option.none]
    (by decide)
  exact h.1

/-- Claim C8 counterexample: two distinct UI nodes carrying the same text
produce a duplicate in one dump, so the dumped sequence is not
duplicate-free. -/
theorem C8_dump_duplicates_counterexample :
    AdbController.dump_ui_texts [⟨"OK", "", ""⟩, ⟨"OK", "", ""⟩] =
        ["OK", "OK"] ∧
      ¬ (AdbController.dump_ui_texts [⟨"OK", "", ""⟩, ⟨"OK", "", ""⟩]).Nodup := by
  constructor
  · decide
  · decide

/-- Claim C8 as amended: the dump is the insertion-ordered concatenation of
per-node contributions, and deduplication holds only within a single node
(content-desc skipped when equal to the text, hint skipped when equal to
either); duplicates across nodes are preserved. -/
theorem C8_dump_order_per_node_dedup (nodes : List UiNode) :
    AdbController.dump_ui_texts nodes =
        nodes.flatMap AdbController.nodeTexts ∧
      ∀ n ∈ nodes, (AdbController.nodeTexts n).Nodup := by
  constructor
  · simpa using AdbController.foldl_dumpStep nodes []
  · intro n _
    exact AdbController.nodeTexts_nodup n

/-- Witness for C8: a single node with distinct text, content-desc and hint
contributes all three, duplicate-free. -/
theorem C8_dump_order_per_node_dedup_witness :
    AdbController.dump_ui_texts [⟨"Save", "Save note", "Enter name"⟩] =
        ["Save", "Save note", "Enter name"] ∧
      (AdbController.nodeTexts ⟨"Save", "Save note", "Enter name"⟩).Nodup := by
  have h := C8_dump_order_per_node_dedup [⟨"Save", "Save note", "Enter name"⟩]
  exact ⟨by decide, h.2 _ (by simp)⟩

/-- Claim C9: normalized-to-pixel conversion is deterministic truncation,
which on the normalized [0,1] range coincides with
`pixel = floor(normalized * dimension)`, with no rounding or clamping: on a
1080x1920 device, (0.5, 0.5) maps to exactly (540, 960) and (1.0, 1.0) to
exactly (1080, 1920). -/
theorem C9_normalized_to_pixels (w h : ℤ) (x y : ℚ)
    (hw : 0 ≤ w) (hh : 0 ≤ h) (hx : 0 ≤ x) (hy : 0 ≤ y) :
    Executor.normalized_to_pixels w h x y =
        (Int.floor (x * w), Int.floor (y * h)) ∧
      Executor.normalized_to_pixels 1080 1920 (1/2) (1/2) = (540, 960) ∧
      Executor.normalized_to_pixels 1080 1920 1 1 = (1080, 1920) := by
  have conv1 : ∀ (w' h' : ℤ) (x' y' : ℚ), 0 ≤ w' → 0 ≤ h' → 0 ≤ x' → 0 ≤ y' →
      Executor.normalized_to_pixels w' h' x' y' =
        (Int.floor (x' * w'), Int.floor (y' * h')) := by
    intro w' h' x' y' hw' hh' hx' hy'
    have hw2 : (0:ℚ) ≤ (w':ℚ) := by exact_mod_cast hw'
    have hh2 : (0:ℚ) ≤ (h':ℚ) := by exact_mod_cast hh'
    simp [Executor.normalized_to_pixels, pyInt_of_nonneg (mul_nonneg hx' hw2),
      pyInt_of_nonneg (mul_nonneg hy' hh2)]
  refine ⟨conv1 w h x y hw hh hx hy, ?_, ?_⟩
  · rw [conv1 1080 1920 (1/2) (1/2) (by norm_num) (by norm_num) (by norm_num)
      (by norm_num)]
    norm_num
  · rw [conv1 1080 1920 1 1 (by norm_num) (by norm_num) (by norm_num)
      (by norm_num)]
    norm_num

/-- Witness for C9: the half-half tap on a 1080x1920 screen lands on pixel
(540, 960). -/
theorem C9_normalized_to_pixels_witness :
    Executor.normalized_to_pixels 1080 1920 (1/2) (1/2) = (540, 960) :=
  (C9_normalized_to_pixels 1080 1920 (1/2) (1/2) (by norm_num) (by norm_num)
    (by norm_num) (by norm_num)).2.1

/-- Claim C10: the recovery gestures are sent directly to the device and
never recorded — the ladder leaves the step results, the action history,
the attempted-actions list and the executor trace untouched; over any run,
the recorded steps are exactly the results of the planner actions handed to
the Executor and the history mirrors them; the recovery trace holds only the
three gestures; and `Executor.execute` always reports the action it was
given (so the oracle premise is sound). -/
theorem C10_recovery_gestures_unrecorded :
    (∀ (cfg : RunConfig) (pkg : String) (e : ErrorType) (s : LoopState),
      (escalate cfg pkg e s).1.steps = s.steps ∧
      (escalate cfg pkg e s).1.action_history = s.action_history ∧
      (escalate cfg pkg e s).1.attempted_this_step = s.attempted_this_step ∧
      (escalate cfg pkg e s).1.execTrace = s.execTrace) ∧
    (∀ (env : RunEnv) (cfg : RunConfig) (pkg : String),
      (∀ i a, (env.exec i a).action = a) →
      (runLoop env cfg pkg).steps.map (·.action) =
          (runLoop env cfg pkg).execTrace ∧
        (runLoop env cfg pkg).action_history =
          (runLoop env cfg pkg).execTrace.map historyEntry) ∧
    (∀ (env : RunEnv) (cfg : RunConfig) (pkg : String),
      ∀ c ∈ (runLoop env cfg pkg).recoveryTrace,
        c = DeviceCmd.swipe 540 1500 540 500 300 ∨ c = DeviceCmd.back ∨
          c = DeviceCmd.relaunch_app (.str pkg)) ∧
    (∀ (dev : Device) (w h : ℤ) (a : Action) (r : StepResult),
      Executor.execute dev w h a = Option.some r → r.action = a) :=
  ⟨fun cfg pkg e s =>
      ⟨(escalate_frame cfg pkg e s).1, (escalate_frame cfg pkg e s).2.1,
        (escalate_frame cfg pkg e s).2.2.1,
        (escalate_frame cfg pkg e s).2.2.2.1⟩,
    fun env cfg pkg hex => runLoop_records env cfg pkg hex,
    fun env cfg pkg => runLoop_recovery env cfg pkg,
    Executor.execute_action_field⟩

/-- Witness for C10: in the ladder-exercising run the recorded steps are
exactly the executed planner actions, and a back-press found in the
recovery trace is one of the three gestures. -/
theorem C10_recovery_gestures_unrecorded_witness :
    ((runLoop envC10 {} "md.obsidian").steps.map (·.action) =
        (runLoop envC10 {} "md.obsidian").execTrace) ∧
      (DeviceCmd.back = DeviceCmd.swipe 540 1500 540 500 300 ∨
        DeviceCmd.back = DeviceCmd.back ∨
        DeviceCmd.back = DeviceCmd.relaunch_app (.str "md.obsidian")) :=
  ⟨(C10_recovery_gestures_unrecorded.2.1 envC10 {} "md.obsidian"
      (fun _ _ => rfl)).1,
    C10_recovery_gestures_unrecorded.2.2.1 envC10 {} "md.obsidian"
      DeviceCmd.back (by decide)⟩

end QualGent
